import Mathlib

/-!
Verification of the plane-geometry builder in
`src/geometryBuilders/buildPlaneGeometry.js`.

The configuration numbers are modelled as rationals (exact arithmetic over
the values the JavaScript code manipulates), the four output arrays as
lists (positions, normals, uv over ℚ; indices over ℕ), and the
`console.error` diagnostics as a list of the emitted message strings, in
emission order.
-/

/-- Configuration record for the builder; every field is optional, matching
the optional fields of the JavaScript `cfg` object. -/
structure PlaneCfg where
  center : Option (ℚ × ℚ × ℚ)
  xSize : Option ℚ
  zSize : Option ℚ
  xSegments : Option ℚ
  zSegments : Option ℚ
  deriving DecidableEq

/-- Output geometry record returned by the builder (lines 167-173). -/
structure Geometry where
  primitiveType : String
  positions : List ℚ
  normals : List ℚ
  uv : List ℚ
  indices : List ℕ
  deriving DecidableEq

/-- JavaScript falsy defaulting `v || d`: an absent or zero field yields `d`
(over the rationals zero is the only falsy number). -/
def jsOrQ (v : Option ℚ) (d : ℚ) : ℚ :=
  match v with
  | none => d
  | some x => if x = 0 then d else x

/-- Sign correction `if (v < 0) v *= -1` applied to sizes and segment counts. -/
def invertNeg (q : ℚ) : ℚ := if q < 0 then -q else q

/-- Clamp `if (v < 1) v = 1` applied to segment counts (lines 75-77, 84-86). -/
def clampOne (q : ℚ) : ℚ := if q < 1 then 1 else q

/-- The `Math.floor(v) || 1` computation for `planeX` and `planeZ`
(lines 96-97). -/
def floorOrOne (q : ℚ) : ℤ := if ⌊q⌋ = 0 then 1 else ⌊q⌋

/-- Sanitized size: falsy-defaulting to 1 followed by sign inversion
(lines 58-68). -/
def effSize (v : Option ℚ) : ℚ := invertNeg (jsOrQ v 1)

/-- Effective segment count: falsy-defaulting to 1, sign inversion, clamping
to at least 1, then flooring (lines 70-77 and 96).  The result is a natural
number; the sanitization guarantees the floored value is at least 1, so the
final `Int.toNat` loses nothing. -/
def effSegments (v : Option ℚ) : ℕ := (floorOrOne (clampOne (invertNeg (jsOrQ v 1)))).toNat

/-- Diagnostic emitted when the raw (falsy-defaulted) field value is
negative. -/
def negDiag (v : Option ℚ) (msg : String) : List String :=
  if jsOrQ v 1 < 0 then [msg] else []

/-- Vertex positions: the double loop of lines 120-139, row-major
(outer `iz`, inner `ix`), three entries per vertex. -/
def planePositions (pX pZ : ℕ) (xSize zSize cX cY cZ : ℚ) : List ℚ :=
  (List.range (pZ + 1)).flatMap fun iz =>
    (List.range (pX + 1)).flatMap fun ix =>
      [(ix : ℚ) * (xSize / pX) - xSize / 2 + cX,
       cY,
       -((iz : ℚ) * (zSize / pZ) - zSize / 2) + cZ]

/-- Vertex normals: the backing array is zero-initialized and only the Z
component of each triple is assigned, to -1 (line 132). -/
def planeNormals (pX pZ : ℕ) : List ℚ :=
  (List.range (pZ + 1)).flatMap fun _ =>
    (List.range (pX + 1)).flatMap fun _ =>
      ([0, 0, -1] : List ℚ)

/-- Texture coordinates, two entries per vertex (lines 134-135). -/
def planeUVs (pX pZ : ℕ) : List ℚ :=
  (List.range (pZ + 1)).flatMap fun iz =>
    (List.range (pX + 1)).flatMap fun ix =>
      [(ix : ℚ) / pX, ((pZ : ℚ) - iz) / pZ]

/-- Triangle indices (lines 146-165): for each cell the two triangles
`(d, b, a)` and `(d, c, b)` with `a = ix + (pX+1)*iz`,
`b = ix + (pX+1)*(iz+1)`, `c = (ix+1) + (pX+1)*(iz+1)`,
`d = (ix+1) + (pX+1)*iz`. -/
def planeIndices (pX pZ : ℕ) : List ℕ :=
  (List.range pZ).flatMap fun iz =>
    (List.range pX).flatMap fun ix =>
      [(ix + 1) + (pX + 1) * iz,
       ix + (pX + 1) * (iz + 1),
       ix + (pX + 1) * iz,
       (ix + 1) + (pX + 1) * iz,
       (ix + 1) + (pX + 1) * (iz + 1),
       ix + (pX + 1) * (iz + 1)]

/-- Shallow embedding of `buildPlaneGeometry` (lines 56-174).  Returns the
geometry record together with the list of diagnostics.  Line 79 of the
source initializes its `zSegments` variable from `cfg.xSegments`, not from
`cfg.zSegments`; the embedding reproduces this by computing both `planeX`
and `planeZ` (and both segment diagnostics) from `cfg.xSegments`, and
`cfg.zSegments` is consequently never read. -/
def buildPlaneGeometry (cfg : PlaneCfg) : Geometry × List String :=
  let xSize := effSize cfg.xSize
  let zSize := effSize cfg.zSize
  let planeX := effSegments cfg.xSegments
  let planeZ := effSegments cfg.xSegments
  let c := cfg.center.getD (0, 0, 0)
  (⟨"triangles",
      planePositions planeX planeZ xSize zSize c.1 c.2.1 c.2.2,
      planeNormals planeX planeZ,
      planeUVs planeX planeZ,
      planeIndices planeX planeZ⟩,
    negDiag cfg.xSize "negative xSize not allowed - will invert"
      ++ negDiag cfg.zSize "negative zSize not allowed - will invert"
      ++ negDiag cfg.xSegments "negative xSegments not allowed - will invert"
      ++ negDiag cfg.xSegments "negative zSegments not allowed - will invert")

/-- Number of vertices of an output geometry: a third of the length of its
flat `positions` array. -/
def vertexCount (g : Geometry) : ℕ := g.positions.length / 3

/-- Unfolding of the geometry component of the builder. -/
lemma build_fst (cfg : PlaneCfg) :
    (buildPlaneGeometry cfg).1 =
      ⟨"triangles",
        planePositions (effSegments cfg.xSegments) (effSegments cfg.xSegments)
          (effSize cfg.xSize) (effSize cfg.zSize)
          (cfg.center.getD (0, 0, 0)).1 (cfg.center.getD (0, 0, 0)).2.1
          (cfg.center.getD (0, 0, 0)).2.2,
        planeNormals (effSegments cfg.xSegments) (effSegments cfg.xSegments),
        planeUVs (effSegments cfg.xSegments) (effSegments cfg.xSegments),
        planeIndices (effSegments cfg.xSegments) (effSegments cfg.xSegments)⟩ := rfl

/-- Unfolding of the diagnostics component of the builder. -/
lemma build_snd (cfg : PlaneCfg) :
    (buildPlaneGeometry cfg).2 =
      negDiag cfg.xSize "negative xSize not allowed - will invert"
        ++ negDiag cfg.zSize "negative zSize not allowed - will invert"
        ++ negDiag cfg.xSegments "negative xSegments not allowed - will invert"
        ++ negDiag cfg.xSegments "negative zSegments not allowed - will invert" := rfl

lemma one_le_clampOne (q : ℚ) : 1 ≤ clampOne q := by
  unfold clampOne
  by_cases h : q < 1
  · rw [if_pos h]
  · rw [if_neg h]
    exact le_of_not_lt h

/-- The effective segment count is always at least 1. -/
lemma one_le_effSegments (v : Option ℚ) : 1 ≤ effSegments v := by
  have h1 : (1 : ℚ) ≤ clampOne (invertNeg (jsOrQ v 1)) := one_le_clampOne _
  have h2 : (1 : ℤ) ≤ ⌊clampOne (invertNeg (jsOrQ v 1))⌋ := by
    rw [Int.le_floor]
    exact_mod_cast h1
  have h3 : floorOrOne (clampOne (invertNeg (jsOrQ v 1)))
      = ⌊clampOne (invertNeg (jsOrQ v 1))⌋ := by
    unfold floorOrOne
    rw [if_neg (by omega)]
  unfold effSegments
  rw [h3]
  omega

/-- Length of a flatMap over a range when every block has the same length. -/
lemma length_flatMap_const {α : Type} (f : ℕ → List α) (k : ℕ)
    (h : ∀ i, (f i).length = k) : ∀ n, ((List.range n).flatMap f).length = n * k := by
  intro n
  induction n with
  | zero => simp
  | succ m ih =>
    rw [List.range_succ, List.flatMap_append, List.length_append, ih]
    simp [h m, Nat.succ_mul]

/-- Dropping whole blocks from a constant-block-length flatMap over a range
leaves the flatMap of the remaining, shifted range. -/
lemma flatMap_range_drop {α : Type} (f : ℕ → List α) (k : ℕ)
    (h : ∀ i, (f i).length = k) (m r : ℕ) :
    ((List.range (m + r)).flatMap f).drop (k * m)
      = (List.range r).flatMap fun j => f (m + j) := by
  rw [List.range_add, List.flatMap_append, List.flatMap_map]
  have hlen : ((List.range m).flatMap f).length = k * m := by
    rw [length_flatMap_const f k h m, Nat.mul_comm]
  rw [← hlen, List.drop_left]

/-- Block extraction from a constant-block-length flatMap over a range. -/
lemma flatMap_range_get {α : Type} (f : ℕ → List α) (k : ℕ)
    (h : ∀ i, (f i).length = k) (n m : ℕ) (hm : m < n) :
    (((List.range n).flatMap f).drop (k * m)).take k = f m := by
  obtain ⟨r, hr⟩ : ∃ r, n = m + (r + 1) := ⟨n - m - 1, by omega⟩
  subst hr
  rw [flatMap_range_drop f k h m (r + 1), List.range_succ_eq_map, List.flatMap_cons]
  simp only [Nat.add_zero]
  rw [← h m]
  exact List.take_left _ _

/-- Cell extraction from a row-major double flatMap with constant cell
length: the cell `(ix, iz)` sits at offset `k * (iz * inner + ix)`. -/
lemma flatMap_range2_get {α : Type} (g : ℕ → ℕ → List α) (k inner outer iz ix : ℕ)
    (h : ∀ i j, (g i j).length = k) (hiz : iz < outer) (hix : ix < inner) :
    (((List.range outer).flatMap fun i => (List.range inner).flatMap (g i)).drop
        (k * (iz * inner + ix))).take k = g iz ix := by
  have hrow : ∀ i, ((List.range inner).flatMap (g i)).length = inner * k :=
    fun i => length_flatMap_const (g i) k (h i) inner
  have hsplit : k * (iz * inner + ix) = inner * k * iz + k * ix := by ring
  rw [hsplit, ← List.drop_drop]
  obtain ⟨r, hr⟩ : ∃ r, outer = iz + (r + 1) := ⟨outer - iz - 1, by omega⟩
  subst hr
  rw [flatMap_range_drop _ (inner * k) hrow iz (r + 1), List.range_succ_eq_map,
    List.flatMap_cons]
  simp only [Nat.add_zero]
  have hx1 : k * ix ≤ inner * k := by
    calc k * ix ≤ k * inner := Nat.mul_le_mul_left k (Nat.le_of_lt hix)
      _ = inner * k := Nat.mul_comm _ _
  rw [List.drop_append_eq_append_drop, List.take_append_eq_append_take]
  have hdroplen : (((List.range inner).flatMap (g iz)).drop (k * ix)).length
      = inner * k - k * ix := by
    rw [List.length_drop, hrow]
  have hkle : k ≤ inner * k - k * ix := by
    have : k * ix + k ≤ inner * k := by
      calc k * ix + k = k * (ix + 1) := by ring
        _ ≤ k * inner := Nat.mul_le_mul_left k hix
        _ = inner * k := Nat.mul_comm _ _
    omega
  rw [flatMap_range_get (g iz) k (h iz) inner ix hix]
  have h0 : k * ix - ((List.range inner).flatMap (g iz)).length = 0 := by
    rw [hrow]; omega
  have h0' : k - (((List.range inner).flatMap (g iz)).drop (k * ix)).length = 0 := by
    rw [hdroplen]; omega
  rw [h0, h0']
  simp

/-- Element lookup through a drop-take block identity. -/
lemma getElem?_of_drop_take {α : Type} (l ys : List α) (n k j : ℕ)
    (h : (l.drop n).take k = ys) (hj : j < k) : l[n + j]? = ys[j]? := by
  rw [← h, List.getElem?_take, if_pos hj, List.getElem?_drop]

/-- Any corner index of a grid cell is below the vertex count. -/
lemma cell_index_lt (pX pZ u v : ℕ) (hu : u ≤ pX) (hv : v ≤ pZ) :
    u + (pX + 1) * v < (pX + 1) * (pZ + 1) := by
  have h1 : (pX + 1) * v ≤ (pX + 1) * pZ := Nat.mul_le_mul_left _ hv
  calc u + (pX + 1) * v < (pX + 1) + (pX + 1) * pZ := by omega
    _ = (pX + 1) * (pZ + 1) := by ring

lemma planePositions_length (pX pZ : ℕ) (a b c d e : ℚ) :
    (planePositions pX pZ a b c d e).length = (pZ + 1) * ((pX + 1) * 3) := by
  unfold planePositions
  refine length_flatMap_const _ ((pX + 1) * 3) (fun i => ?_) (pZ + 1)
  refine length_flatMap_const _ 3 (fun j => ?_) (pX + 1)
  rfl

lemma planeNormals_length (pX pZ : ℕ) :
    (planeNormals pX pZ).length = (pZ + 1) * ((pX + 1) * 3) := by
  unfold planeNormals
  refine length_flatMap_const _ ((pX + 1) * 3) (fun i => ?_) (pZ + 1)
  refine length_flatMap_const _ 3 (fun j => ?_) (pX + 1)
  rfl

lemma planeUVs_length (pX pZ : ℕ) :
    (planeUVs pX pZ).length = (pZ + 1) * ((pX + 1) * 2) := by
  unfold planeUVs
  refine length_flatMap_const _ ((pX + 1) * 2) (fun i => ?_) (pZ + 1)
  refine length_flatMap_const _ 2 (fun j => ?_) (pX + 1)
  rfl

lemma planeIndices_length (pX pZ : ℕ) :
    (planeIndices pX pZ).length = pZ * (pX * 6) := by
  unfold planeIndices
  refine length_flatMap_const _ (pX * 6) (fun i => ?_) pZ
  refine length_flatMap_const _ 6 (fun j => ?_) pX
  rfl

/-- The vertex count of the built geometry is the square of the effective
segment count plus one (both grid axes use `cfg.xSegments`). -/
lemma vertexCount_build (cfg : PlaneCfg) :
    vertexCount (buildPlaneGeometry cfg).1
      = (effSegments cfg.xSegments + 1) * (effSegments cfg.xSegments + 1) := by
  unfold vertexCount
  rw [build_fst]
  show (planePositions _ _ _ _ _ _ _).length / 3 = _
  rw [planePositions_length]
  rw [show (effSegments cfg.xSegments + 1) * ((effSegments cfg.xSegments + 1) * 3)
      = (effSegments cfg.xSegments + 1) * (effSegments cfg.xSegments + 1) * 3 by ring]
  exact Nat.mul_div_cancel _ (by norm_num)

/-- Projection of the builder output onto the positions array. -/
lemma build_positions (cfg : PlaneCfg) :
    (buildPlaneGeometry cfg).1.positions
      = planePositions (effSegments cfg.xSegments) (effSegments cfg.xSegments)
          (effSize cfg.xSize) (effSize cfg.zSize)
          (cfg.center.getD (0, 0, 0)).1 (cfg.center.getD (0, 0, 0)).2.1
          (cfg.center.getD (0, 0, 0)).2.2 := rfl

/-- Projection of the builder output onto the normals array. -/
lemma build_normals (cfg : PlaneCfg) :
    (buildPlaneGeometry cfg).1.normals
      = planeNormals (effSegments cfg.xSegments) (effSegments cfg.xSegments) := rfl

/-- Projection of the builder output onto the uv array. -/
lemma build_uv (cfg : PlaneCfg) :
    (buildPlaneGeometry cfg).1.uv
      = planeUVs (effSegments cfg.xSegments) (effSegments cfg.xSegments) := rfl

/-- Projection of the builder output onto the indices array. -/
lemma build_indices (cfg : PlaneCfg) :
    (buildPlaneGeometry cfg).1.indices
      = planeIndices (effSegments cfg.xSegments) (effSegments cfg.xSegments) := rfl

/-- The builder only reads a configuration through the falsy-defaulted
values of `xSize`, `zSize` and `xSegments`, and through `center`. -/
lemma build_congr (c₁ c₂ : PlaneCfg)
    (hx : jsOrQ c₁.xSize 1 = jsOrQ c₂.xSize 1)
    (hz : jsOrQ c₁.zSize 1 = jsOrQ c₂.zSize 1)
    (hs : jsOrQ c₁.xSegments 1 = jsOrQ c₂.xSegments 1)
    (hc : c₁.center = c₂.center) :
    buildPlaneGeometry c₁ = buildPlaneGeometry c₂ := by
  simp only [buildPlaneGeometry, effSize, effSegments, negDiag]
  rw [hx, hz, hs, hc]

/-- The geometry component only depends on the sanitized sizes, the raw
segment value and the center. -/
lemma build_fst_congr (c₁ c₂ : PlaneCfg)
    (hx : effSize c₁.xSize = effSize c₂.xSize)
    (hz : effSize c₁.zSize = effSize c₂.zSize)
    (hs : jsOrQ c₁.xSegments 1 = jsOrQ c₂.xSegments 1)
    (hc : c₁.center = c₂.center) :
    (buildPlaneGeometry c₁).1 = (buildPlaneGeometry c₂).1 := by
  rw [build_fst, build_fst]
  unfold effSegments
  rw [hx, hz, hs, hc]

lemma effSegments_none : effSegments none = 1 := by
  norm_num [effSegments, jsOrQ, invertNeg, clampOne, floorOrOne]

lemma effSegments_two : effSegments (some (2 : ℚ)) = 2 := by
  norm_num [effSegments, jsOrQ, invertNeg, clampOne, floorOrOne]
  decide

lemma effSegments_four : effSegments (some (4 : ℚ)) = 4 := by
  norm_num [effSegments, jsOrQ, invertNeg, clampOne, floorOrOne]
  decide

/-- C1 (confirmed): the Z-axis grid density is derived from `cfg.xSegments`,
not `cfg.zSegments`; the supplied `cfg.zSegments` has no effect whatsoever on
the output (geometry and diagnostics alike), and with `xSegments = 4`,
`zSegments = 8` the grid is allocated as if both segment counts were 4
(25 vertices). -/
theorem c1_zSegments_ignored :
    (∀ (ctr : Option (ℚ × ℚ × ℚ)) (xS zS xSeg v w : Option ℚ),
        buildPlaneGeometry ⟨ctr, xS, zS, xSeg, v⟩ = buildPlaneGeometry ⟨ctr, xS, zS, xSeg, w⟩)
    ∧ (buildPlaneGeometry ⟨none, none, none, some 4, some 8⟩).1
        = (buildPlaneGeometry ⟨none, none, none, some 4, some 4⟩).1
    ∧ vertexCount (buildPlaneGeometry ⟨none, none, none, some 4, some 8⟩).1
        = (4 + 1) * (4 + 1) := by
  refine ⟨fun ctr xS zS xSeg v w => rfl, rfl, ?_⟩
  rw [vertexCount_build]
  norm_num [effSegments_four]

/-- C2 (code bug): the documented contract says `vertexCount` is
`(xSegments+1)*(zSegments+1)` and `triangleCount` is
`2*xSegments*zSegments`, but at `xSize = zSize = 1`, `xSegments = 4`,
`zSegments = 8` the code yields 25 vertices (not 45) and 32 triangles
(96 index entries, not 192), because the Z segment count is read from
`cfg.xSegments`. -/
theorem c2_vertexCount_defect_eval :
    vertexCount (buildPlaneGeometry ⟨none, some 1, some 1, some 4, some 8⟩).1 = 25
    ∧ (25 : ℕ) ≠ (4 + 1) * (8 + 1)
    ∧ (buildPlaneGeometry ⟨none, some 1, some 1, some 4, some 8⟩).1.indices.length = 3 * 32
    ∧ (3 * 32 : ℕ) ≠ 3 * (2 * 4 * 8) := by
  refine ⟨?_, by norm_num, ?_, by norm_num⟩
  · rw [vertexCount_build]
    norm_num [effSegments_four]
  · rw [build_indices]
    norm_num [planeIndices_length, effSegments_four]

/-- C3 (confirmed): structural invariant of every output: positions and
normals have length `3 * vertexCount`, uv has length `2 * vertexCount`, the
indices length is divisible by 3, and every index is below the vertex
count. -/
theorem c3_structural_invariant (cfg : PlaneCfg) :
    (buildPlaneGeometry cfg).1.positions.length
        = 3 * vertexCount (buildPlaneGeometry cfg).1
    ∧ (buildPlaneGeometry cfg).1.normals.length
        = 3 * vertexCount (buildPlaneGeometry cfg).1
    ∧ (buildPlaneGeometry cfg).1.uv.length
        = 2 * vertexCount (buildPlaneGeometry cfg).1
    ∧ (buildPlaneGeometry cfg).1.indices.length % 3 = 0
    ∧ ∀ i ∈ (buildPlaneGeometry cfg).1.indices,
        i < vertexCount (buildPlaneGeometry cfg).1 := by
  refine ⟨?_, ?_, ?_, ?_, ?_⟩
  · rw [vertexCount_build, build_positions, planePositions_length]; ring
  · rw [vertexCount_build, build_normals, planeNormals_length]; ring
  · rw [vertexCount_build, build_uv, planeUVs_length]; ring
  · rw [build_indices, planeIndices_length]
    rw [show effSegments cfg.xSegments * (effSegments cfg.xSegments * 6)
        = effSegments cfg.xSegments * effSegments cfg.xSegments * 2 * 3 by ring]
    exact Nat.mul_mod_left _ _
  · intro i hi
    rw [vertexCount_build]
    rw [build_indices] at hi
    unfold planeIndices at hi
    rw [List.mem_flatMap] at hi
    obtain ⟨iz, hiz, hi⟩ := hi
    rw [List.mem_flatMap] at hi
    obtain ⟨ix, hix, hi⟩ := hi
    rw [List.mem_range] at hiz hix
    simp only [List.mem_cons, List.not_mem_nil, or_false] at hi
    rcases hi with rfl | rfl | rfl | rfl | rfl | rfl
    · exact cell_index_lt _ _ _ _ (by omega) (by omega)
    · exact cell_index_lt _ _ _ _ (by omega) (by omega)
    · exact cell_index_lt _ _ _ _ (by omega) (by omega)
    · exact cell_index_lt _ _ _ _ (by omega) (by omega)
    · exact cell_index_lt _ _ _ _ (by omega) (by omega)
    · exact cell_index_lt _ _ _ _ (by omega) (by omega)

/-- C8 (confirmed): the builder is total: for every configuration it
returns a complete geometry record tagged "triangles" with all four
arrays present (and in fact non-empty); the embedding has no error
branch. -/
theorem c8_total (cfg : PlaneCfg) :
    ∃ g diags, buildPlaneGeometry cfg = (g, diags)
      ∧ g.primitiveType = "triangles"
      ∧ g.positions ≠ [] ∧ g.normals ≠ [] ∧ g.uv ≠ [] ∧ g.indices ≠ [] := by
  have hE : 0 < effSegments cfg.xSegments :=
    lt_of_lt_of_le Nat.zero_lt_one (one_le_effSegments _)
  refine ⟨(buildPlaneGeometry cfg).1, (buildPlaneGeometry cfg).2, rfl, rfl, ?_, ?_, ?_, ?_⟩
  · refine List.ne_nil_of_length_pos ?_
    rw [build_positions, planePositions_length]
    positivity
  · refine List.ne_nil_of_length_pos ?_
    rw [build_normals, planeNormals_length]
    positivity
  · refine List.ne_nil_of_length_pos ?_
    rw [build_uv, planeUVs_length]
    positivity
  · refine List.ne_nil_of_length_pos ?_
    rw [build_indices, planeIndices_length]
    positivity

/-- C5 (confirmed): a negative `xSize` (and likewise `zSize`) produces the
same geometry as its absolute value, and the corresponding diagnostic is
emitted. -/
theorem c5_negative_size (ctr : Option (ℚ × ℚ × ℚ)) (xS zS xSeg zSeg : Option ℚ)
    (s : ℚ) (hs : s < 0) :
    ((buildPlaneGeometry ⟨ctr, some s, zS, xSeg, zSeg⟩).1
        = (buildPlaneGeometry ⟨ctr, some (-s), zS, xSeg, zSeg⟩).1
      ∧ "negative xSize not allowed - will invert"
          ∈ (buildPlaneGeometry ⟨ctr, some s, zS, xSeg, zSeg⟩).2)
    ∧ ((buildPlaneGeometry ⟨ctr, xS, some s, xSeg, zSeg⟩).1
        = (buildPlaneGeometry ⟨ctr, xS, some (-s), xSeg, zSeg⟩).1
      ∧ "negative zSize not allowed - will invert"
          ∈ (buildPlaneGeometry ⟨ctr, xS, some s, xSeg, zSeg⟩).2) := by
  have hne : s ≠ 0 := ne_of_lt hs
  have h1 : jsOrQ (some s) 1 = s := by simp [jsOrQ, hne]
  have h2 : jsOrQ (some (-s)) 1 = -s := by simp [jsOrQ, neg_eq_zero, hne]
  have h3 : effSize (some s) = -s := by
    simp only [effSize, h1, invertNeg, if_pos hs]
  have h4 : effSize (some (-s)) = -s := by
    simp only [effSize, h2, invertNeg]
    rw [if_neg (by linarith)]
  constructor
  · constructor
    · exact build_fst_congr _ _ (h3.trans h4.symm) rfl rfl rfl
    · rw [build_snd]
      simp only [negDiag]
      simp [h1, hs]
  · constructor
    · exact build_fst_congr _ _ rfl (h3.trans h4.symm) rfl rfl
    · rw [build_snd]
      simp only [negDiag]
      simp [h1, hs]

/-- Witness for C5 at `s = -2` with all other fields absent. -/
theorem c5_negative_size_witness :
    ((buildPlaneGeometry ⟨none, some (-2), none, none, none⟩).1
        = (buildPlaneGeometry ⟨none, some (-(-2)), none, none, none⟩).1
      ∧ "negative xSize not allowed - will invert"
          ∈ (buildPlaneGeometry ⟨none, some (-2), none, none, none⟩).2)
    ∧ ((buildPlaneGeometry ⟨none, none, some (-2), none, none⟩).1
        = (buildPlaneGeometry ⟨none, none, some (-(-2)), none, none⟩).1
      ∧ "negative zSize not allowed - will invert"
          ∈ (buildPlaneGeometry ⟨none, none, some (-2), none, none⟩).2) :=
  c5_negative_size none none none none none (-2) (by norm_num)

/-- C9 (confirmed): a zero `xSize` (or `zSize`) is falsy, so it is treated
exactly like an absent field (defaulting to 1), and no diagnostic is
emitted for it. -/
theorem c9_zero_size_default (ctr : Option (ℚ × ℚ × ℚ)) (xS zS xSeg zSeg : Option ℚ) :
    buildPlaneGeometry ⟨ctr, some 0, zS, xSeg, zSeg⟩
        = buildPlaneGeometry ⟨ctr, none, zS, xSeg, zSeg⟩
    ∧ buildPlaneGeometry ⟨ctr, xS, some 0, xSeg, zSeg⟩
        = buildPlaneGeometry ⟨ctr, xS, none, xSeg, zSeg⟩
    ∧ (buildPlaneGeometry ⟨none, some 0, some 0, none, none⟩).2 = [] := by
  have h : jsOrQ (some 0) 1 = jsOrQ none 1 := by simp [jsOrQ]
  refine ⟨build_congr _ _ h rfl rfl rfl, build_congr _ _ rfl h rfl rfl, ?_⟩
  norm_num [build_snd, negDiag, jsOrQ]

/-- Witness for C9 (degenerate: the statement has no hypotheses, but we
record a closed instance). -/
theorem c9_zero_size_default_witness :
    buildPlaneGeometry ⟨none, some 0, none, none, none⟩
        = buildPlaneGeometry ⟨none, none, none, none, none⟩
    ∧ buildPlaneGeometry ⟨none, none, some 0, none, none⟩
        = buildPlaneGeometry ⟨none, none, none, none, none⟩
    ∧ (buildPlaneGeometry ⟨none, some 0, some 0, none, none⟩).2 = [] :=
  c9_zero_size_default none none none none none

/-- C10 (confirmed): the "negative zSegments" diagnostic branch tests the
value read from `cfg.xSegments`; a negative `cfg.zSegments` (with
`cfg.xSegments` absent) emits no diagnostic and leaves the output
unchanged, while a negative `cfg.xSegments` emits both the xSegments
diagnostic and the zSegments diagnostic. -/
theorem c10_diag_mismatch (z x : ℚ) (hz : z < 0) (hx : x < 0) :
    (∀ (ctr : Option (ℚ × ℚ × ℚ)) (xS zS xSeg : Option ℚ),
        buildPlaneGeometry ⟨ctr, xS, zS, xSeg, some z⟩
          = buildPlaneGeometry ⟨ctr, xS, zS, xSeg, none⟩)
    ∧ (buildPlaneGeometry ⟨none, none, none, none, some z⟩).2 = []
    ∧ "negative xSegments not allowed - will invert"
        ∈ (buildPlaneGeometry ⟨none, none, none, some x, none⟩).2
    ∧ "negative zSegments not allowed - will invert"
        ∈ (buildPlaneGeometry ⟨none, none, none, some x, none⟩).2 := by
  have hne : x ≠ 0 := ne_of_lt hx
  have h1 : jsOrQ (some x) 1 = x := by simp [jsOrQ, hne]
  refine ⟨fun ctr xS zS xSeg => rfl, ?_, ?_, ?_⟩
  · norm_num [build_snd, negDiag, jsOrQ]
  · rw [build_snd]
    simp only [negDiag]
    simp [h1, hx]
  · rw [build_snd]
    simp only [negDiag]
    simp [h1, hx]

/-- Witness for C10 at `z = -3`, `x = -5`. -/
theorem c10_diag_mismatch_witness :
    (∀ (ctr : Option (ℚ × ℚ × ℚ)) (xS zS xSeg : Option ℚ),
        buildPlaneGeometry ⟨ctr, xS, zS, xSeg, some (-3)⟩
          = buildPlaneGeometry ⟨ctr, xS, zS, xSeg, none⟩)
    ∧ (buildPlaneGeometry ⟨none, none, none, none, some (-3)⟩).2 = []
    ∧ "negative xSegments not allowed - will invert"
        ∈ (buildPlaneGeometry ⟨none, none, none, some (-5), none⟩).2
    ∧ "negative zSegments not allowed - will invert"
        ∈ (buildPlaneGeometry ⟨none, none, none, some (-5), none⟩).2 :=
  c10_diag_mismatch (-3) (-5) (by norm_num) (by norm_num)

/-- C4 (confirmed): for each grid cell `(ix, iz)` within the effective
segment counts, the six index entries starting at offset
`6 * (iz * E + ix)` are exactly the two triangles `(d, b, a)` and
`(d, c, b)`; the offset formula also shows the cells are emitted in
row-major order. -/
theorem c4_triangulation (cfg : PlaneCfg) (E ix iz : ℕ)
    (hE : E = effSegments cfg.xSegments) (hix : ix < E) (hiz : iz < E) :
    (((buildPlaneGeometry cfg).1.indices).drop (6 * (iz * E + ix))).take 6
      = [(ix + 1) + (E + 1) * iz,
         ix + (E + 1) * (iz + 1),
         ix + (E + 1) * iz,
         (ix + 1) + (E + 1) * iz,
         (ix + 1) + (E + 1) * (iz + 1),
         ix + (E + 1) * (iz + 1)] := by
  subst hE
  rw [build_indices]
  have hblock := flatMap_range2_get
      (fun jz jx => [(jx + 1) + (effSegments cfg.xSegments + 1) * jz,
        jx + (effSegments cfg.xSegments + 1) * (jz + 1),
        jx + (effSegments cfg.xSegments + 1) * jz,
        (jx + 1) + (effSegments cfg.xSegments + 1) * jz,
        (jx + 1) + (effSegments cfg.xSegments + 1) * (jz + 1),
        jx + (effSegments cfg.xSegments + 1) * (jz + 1)])
      6 (effSegments cfg.xSegments) (effSegments cfg.xSegments) iz ix
      (fun _ _ => rfl) hiz hix
  simpa [planeIndices] using hblock

/-- Witness for C4 on a 2-by-2 grid at cell `(ix, iz) = (1, 1)`. -/
theorem c4_triangulation_witness :
    (((buildPlaneGeometry ⟨none, none, none, some 2, none⟩).1.indices).drop
        (6 * (1 * 2 + 1))).take 6
      = [(1 + 1) + (2 + 1) * 1,
         1 + (2 + 1) * (1 + 1),
         1 + (2 + 1) * 1,
         (1 + 1) + (2 + 1) * 1,
         (1 + 1) + (2 + 1) * (1 + 1),
         1 + (2 + 1) * (1 + 1)] :=
  c4_triangulation ⟨none, none, none, some 2, none⟩ 2 1 1 effSegments_two.symm
    (by norm_num) (by norm_num)

/-- C6 (confirmed): every per-vertex normal is exactly `(0, 0, -1)`:
for every vertex `k` below the vertex count, components `3k` and `3k+1`
are 0 and component `3k+2` is -1. -/
theorem c6_normals_constant (cfg : PlaneCfg) (k : ℕ)
    (hk : k < vertexCount (buildPlaneGeometry cfg).1) :
    ((buildPlaneGeometry cfg).1.normals)[3 * k]? = some 0
    ∧ ((buildPlaneGeometry cfg).1.normals)[3 * k + 1]? = some 0
    ∧ ((buildPlaneGeometry cfg).1.normals)[3 * k + 2]? = some (-1) := by
  rw [vertexCount_build] at hk
  obtain ⟨iz, ix, hiz2, hix2, rfl⟩ :
      ∃ iz ix, iz < effSegments cfg.xSegments + 1 ∧ ix < effSegments cfg.xSegments + 1
        ∧ k = iz * (effSegments cfg.xSegments + 1) + ix := by
    refine ⟨k / (effSegments cfg.xSegments + 1), k % (effSegments cfg.xSegments + 1),
      Nat.div_lt_of_lt_mul hk, Nat.mod_lt _ (Nat.succ_pos _), ?_⟩
    conv_lhs => rw [← Nat.div_add_mod k (effSegments cfg.xSegments + 1)]
    ring
  have hblock := flatMap_range2_get (fun _ _ => ([0, 0, -1] : List ℚ)) 3
      (effSegments cfg.xSegments + 1) (effSegments cfg.xSegments + 1) iz ix
      (fun _ _ => rfl) hiz2 hix2
  rw [build_normals]
  refine ⟨?_, ?_, ?_⟩
  · have h0 := getElem?_of_drop_take _ _
      (3 * (iz * (effSegments cfg.xSegments + 1) + ix)) 3 0 hblock (by norm_num)
    simpa [planeNormals] using h0
  · have h1 := getElem?_of_drop_take _ _
      (3 * (iz * (effSegments cfg.xSegments + 1) + ix)) 3 1 hblock (by norm_num)
    simpa [planeNormals] using h1
  · have h2 := getElem?_of_drop_take _ _
      (3 * (iz * (effSegments cfg.xSegments + 1) + ix)) 3 2 hblock (by norm_num)
    simpa [planeNormals] using h2

/-- Witness for C6 at the default configuration and vertex 3. -/
theorem c6_normals_constant_witness :
    ((buildPlaneGeometry ⟨none, none, none, none, none⟩).1.normals)[3 * 3]? = some 0
    ∧ ((buildPlaneGeometry ⟨none, none, none, none, none⟩).1.normals)[3 * 3 + 1]? = some 0
    ∧ ((buildPlaneGeometry ⟨none, none, none, none, none⟩).1.normals)[3 * 3 + 2]?
        = some (-1 : ℚ) :=
  c6_normals_constant ⟨none, none, none, none, none⟩ 3
    (by rw [vertexCount_build]; norm_num [effSegments_none])

/-- C7 (confirmed): the UV of grid vertex `(ix, iz)` is
`(ix / E, (E - iz) / E)` over the effective segment counts `E`, and the
corner vertices `(0, 0)` and `(E, E)` have UV exactly `(0, 1)` and
`(1, 0)`. -/
theorem c7_uv_coordinates (cfg : PlaneCfg) (E ix iz : ℕ)
    (hE : E = effSegments cfg.xSegments) (hix : ix ≤ E) (hiz : iz ≤ E) :
    (((buildPlaneGeometry cfg).1.uv)[2 * (iz * (E + 1) + ix)]? = some ((ix : ℚ) / (E : ℚ))
      ∧ ((buildPlaneGeometry cfg).1.uv)[2 * (iz * (E + 1) + ix) + 1]?
          = some (((E : ℚ) - (iz : ℚ)) / (E : ℚ)))
    ∧ ((buildPlaneGeometry cfg).1.uv)[0]? = some (0 : ℚ)
    ∧ ((buildPlaneGeometry cfg).1.uv)[1]? = some (1 : ℚ)
    ∧ ((buildPlaneGeometry cfg).1.uv)[2 * (E * (E + 1) + E)]? = some (1 : ℚ)
    ∧ ((buildPlaneGeometry cfg).1.uv)[2 * (E * (E + 1) + E) + 1]? = some (0 : ℚ) := by
  subst hE
  have hE1 : 1 ≤ effSegments cfg.xSegments := one_le_effSegments _
  have hEQ : (effSegments cfg.xSegments : ℚ) ≠ 0 := Nat.cast_ne_zero.mpr (by omega)
  have huv : ∀ jx jz : ℕ, jx < effSegments cfg.xSegments + 1 →
      jz < effSegments cfg.xSegments + 1 →
      ((buildPlaneGeometry cfg).1.uv)[2 * (jz * (effSegments cfg.xSegments + 1) + jx)]?
          = some ((jx : ℚ) / (effSegments cfg.xSegments : ℚ))
      ∧ ((buildPlaneGeometry cfg).1.uv)[2 * (jz * (effSegments cfg.xSegments + 1) + jx) + 1]?
          = some (((effSegments cfg.xSegments : ℚ) - (jz : ℚ)) / (effSegments cfg.xSegments : ℚ)) := by
    intro jx jz hjx hjz
    have hblock := flatMap_range2_get
        (fun jz jx => [(jx : ℚ) / (effSegments cfg.xSegments : ℚ),
          ((effSegments cfg.xSegments : ℚ) - (jz : ℚ)) / (effSegments cfg.xSegments : ℚ)])
        2 (effSegments cfg.xSegments + 1) (effSegments cfg.xSegments + 1) jz jx
        (fun _ _ => rfl) hjz hjx
    rw [build_uv]
    constructor
    · have h0 := getElem?_of_drop_take _ _
        (2 * (jz * (effSegments cfg.xSegments + 1) + jx)) 2 0 hblock (by norm_num)
      simpa [planeUVs] using h0
    · have h1 := getElem?_of_drop_take _ _
        (2 * (jz * (effSegments cfg.xSegments + 1) + jx)) 2 1 hblock (by norm_num)
      simpa [planeUVs] using h1
  refine ⟨huv ix iz (by omega) (by omega), ?_, ?_, ?_, ?_⟩
  · have h := (huv 0 0 (by omega) (by omega)).1
    simpa using h
  · have h := (huv 0 0 (by omega) (by omega)).2
    simpa [div_self hEQ] using h
  · have h := (huv (effSegments cfg.xSegments) (effSegments cfg.xSegments)
      (by omega) (by omega)).1
    simpa [div_self hEQ] using h
  · have h := (huv (effSegments cfg.xSegments) (effSegments cfg.xSegments)
      (by omega) (by omega)).2
    simpa using h

/-- Witness for C7 on a 2-by-2 grid at vertex `(ix, iz) = (1, 2)`. -/
theorem c7_uv_coordinates_witness :
    (((buildPlaneGeometry ⟨none, none, none, some 2, none⟩).1.uv)[2 * (2 * (2 + 1) + 1)]?
        = some (((1 : ℕ) : ℚ) / ((2 : ℕ) : ℚ))
      ∧ ((buildPlaneGeometry ⟨none, none, none, some 2, none⟩).1.uv)[2 * (2 * (2 + 1) + 1) + 1]?
          = some ((((2 : ℕ) : ℚ) - ((2 : ℕ) : ℚ)) / ((2 : ℕ) : ℚ)))
    ∧ ((buildPlaneGeometry ⟨none, none, none, some 2, none⟩).1.uv)[0]? = some (0 : ℚ)
    ∧ ((buildPlaneGeometry ⟨none, none, none, some 2, none⟩).1.uv)[1]? = some (1 : ℚ)
    ∧ ((buildPlaneGeometry ⟨none, none, none, some 2, none⟩).1.uv)[2 * (2 * (2 + 1) + 2)]?
        = some (1 : ℚ)
    ∧ ((buildPlaneGeometry ⟨none, none, none, some 2, none⟩).1.uv)[2 * (2 * (2 + 1) + 2) + 1]?
        = some (0 : ℚ) :=
  c7_uv_coordinates ⟨none, none, none, some 2, none⟩ 2 1 2 effSegments_two.symm
    (by norm_num) (by norm_num)

/-- Witness for C3 at the configuration with `xSegments = 2`. -/
theorem c3_structural_invariant_witness :
    (buildPlaneGeometry ⟨none, none, none, some 2, none⟩).1.positions.length
        = 3 * vertexCount (buildPlaneGeometry ⟨none, none, none, some 2, none⟩).1
    ∧ (buildPlaneGeometry ⟨none, none, none, some 2, none⟩).1.normals.length
        = 3 * vertexCount (buildPlaneGeometry ⟨none, none, none, some 2, none⟩).1
    ∧ (buildPlaneGeometry ⟨none, none, none, some 2, none⟩).1.uv.length
        = 2 * vertexCount (buildPlaneGeometry ⟨none, none, none, some 2, none⟩).1
    ∧ (buildPlaneGeometry ⟨none, none, none, some 2, none⟩).1.indices.length % 3 = 0
    ∧ ∀ i ∈ (buildPlaneGeometry ⟨none, none, none, some 2, none⟩).1.indices,
        i < vertexCount (buildPlaneGeometry ⟨none, none, none, some 2, none⟩).1 :=
  c3_structural_invariant ⟨none, none, none, some 2, none⟩

/-- Witness for C8 at the empty configuration. -/
theorem c8_total_witness :
    ∃ g diags, buildPlaneGeometry ⟨none, none, none, none, none⟩ = (g, diags)
      ∧ g.primitiveType = "triangles"
      ∧ g.positions ≠ [] ∧ g.normals ≠ [] ∧ g.uv ≠ [] ∧ g.indices ≠ [] :=
  c8_total ⟨none, none, none, none, none⟩
